import Mathlib

/-!
Verification of the appointment-booking service (src/app.py) against its
natural-language specification.

The embedding models the single sqlite table as a list of rows in rowid
order; sqlite inserts append at the end and updates preserve positions.
Machine strings are Lean strings; times of day are formatted exactly as
strftime does from minutes since midnight.  Python exceptions are modelled
as explicit error results, and every operation additionally reports whether
each storage connection it acquired was also released (the `connOk` flags),
following the control flow of the source line by line.
-/

namespace AppointmentBooking

/-- Strict lexicographic order on strings, the order sqlite and Python use
when comparing the stored HH:MM text values: the core library order on the
underlying character lists.  Stated explicitly (rather than through the
ambient < notation) so that it is unambiguous and evaluates by kernel
reduction. -/
abbrev strLt (s t : String) : Prop := s.data < t.data

/-! ### Time-of-day formatting, modelling strftime with format %H:%M -/

/-- An ASCII digit character, for n < 10. -/
def digitChar (n : Nat) : Char := Char.ofNat (48 + n)

/-- Two zero-padded decimal digits of a number below 100 (hours are below
24 and minutes below 60, so the leading mod 10 never truncates). -/
def pad2 (n : Nat) : List Char := [digitChar (n / 10 % 10), digitChar (n % 10)]

/-- Format minutes-since-midnight the way datetime.strftime formats
the string %H:%M.  Callers pass the value reduced mod 1440, because a
datetime that overflows past midnight rolls its date forward and %H:%M
shows the time on the new day. -/
def fmtHHMM (m : Nat) : String := ⟨pad2 (m / 60) ++ ':' :: pad2 (m % 60)⟩

/-! ### Date parsing, modelling datetime.strptime with format %Y-%m-%d

strptime matches exactly four digits for %Y, one or two digits for %m
(restricted to 1..12) and for %d (restricted by the regular expression to
1..31), requires the whole string to be consumed, and then datetime
validates the day against the month length (and the year against
MINYEAR = 1).  Only ASCII digits are modelled. -/

/-- Numeric value of a list of ASCII digit characters. -/
def digitsVal (l : List Char) : Nat := l.foldl (fun a c => a * 10 + (c.toNat - 48)) 0

/-- Gregorian leap-year rule, as used by datetime. -/
def isLeap (y : Nat) : Bool := y % 4 == 0 && (y % 100 != 0 || y % 400 == 0)

/-- Number of days in a month, as validated by the datetime constructor. -/
def daysInMonth (y m : Nat) : Nat :=
  if m = 2 then (if isLeap y then 29 else 28)
  else if m = 4 ∨ m = 6 ∨ m = 9 ∨ m = 11 then 30
  else 31

/-- Parse a %Y-%m-%d date string; some (y, m, d) exactly when
datetime.strptime(s, \x7bthe format\x7d) succeeds. -/
def parseYMD (s : String) : Option (Nat × Nat × Nat) :=
  match s.data.span Char.isDigit with
  | (ys, '-' :: r₂) =>
    match r₂.span Char.isDigit with
    | (ms, '-' :: r₄) =>
      match r₄.span Char.isDigit with
      | (ds, []) =>
        if ys.length = 4 ∧ 1 ≤ ms.length ∧ ms.length ≤ 2 ∧ 1 ≤ ds.length ∧ ds.length ≤ 2 then
          let y := digitsVal ys
          let m := digitsVal ms
          let d := digitsVal ds
          if 1 ≤ y ∧ 1 ≤ m ∧ m ≤ 12 ∧ 1 ≤ d ∧ d ≤ daysInMonth y m then some (y, m, d)
          else none
        else none
      | _ => none
    | _ => none
  | _ => none

/-! ### The data model: the timeslots table -/

/-- One row of the timeslots table (src/app.py lines 27-38).  The customer
columns are nullable; none models SQL NULL / an absent value. -/
structure Slot where
  id : Nat
  date : String
  start_time : String
  end_time : String
  is_booked : Bool
  customer_name : Option String
  customer_email : Option String
  customer_phone : Option String
deriving DecidableEq, Repr

/-- The table in rowid order: SELECT * returns rows in this order, INSERT
appends, UPDATE preserves positions. -/
abbrev Table := List Slot

/-- The rowid assigned by AUTOINCREMENT to the next insert: one more than
the largest id ever used (rows are never deleted, so that is the largest
current id). -/
def nextId (t : Table) : Nat := t.foldr (fun r a => max r.id a) 0 + 1

/-- The existence check of src/app.py lines 51-54:
SELECT * FROM timeslots WHERE date = ? AND start_time = ?. -/
def slotExists (t : Table) (d st : String) : Bool :=
  t.any fun r => r.date == d && r.start_time == st

/-! ### Python exceptions and responses -/

/-- The exceptions the source can raise: HTTPException(status, detail) and
the ValueError raised by strptime / datetime.replace (whose message text is
produced by the Python runtime and is not modelled). -/
inductive PyExc where
  | valueError : PyExc
  | http : Nat → String → PyExc
deriving DecidableEq, Repr

/-- The string str(e) for an HTTPException, per its Python formatting
"\x7bstatus_code\x7d: \x7bdetail\x7d". -/
def strHTTP (status : Nat) (detail : String) : String :=
  toString status ++ ": " ++ detail

/-- An HTTP response: status code plus the JSON message / error detail. -/
structure Resp where
  status : Nat
  detail : String
deriving DecidableEq, Repr

deriving instance DecidableEq for Except

/-- Outcome of the raw generate_timeslots function: the raised exception or
unit, the table afterwards, and whether every storage connection the call
acquired was also released. -/
structure FnOut where
  result : Except PyExc Unit
  table : Table
  connOk : Bool
deriving DecidableEq, Repr

/-- Outcome of an endpoint that mutates the table. -/
structure EpOut where
  resp : Resp
  table : Table
  connOk : Bool
deriving DecidableEq, Repr

/-- Outcome of a listing endpoint (the table is not mutated). -/
structure ListOut where
  result : Except Resp (List Slot)
  connOk : Bool
deriving DecidableEq, Repr

/-! ### The slot generator (src/app.py lines 41-65) -/

/-- The body of one iteration of the generate_timeslots loop (lines 50-60):
check whether a row with this (date, start_time) exists and insert it if
not.  The times stored are strftime('%H:%M') of the running datetime, hence
reduced mod 1440; the date column always receives the original date
argument even when the slot end rolls past midnight. -/
def genStep (d : String) (dur current : Nat) (t : Table) : Table :=
  if slotExists t d (fmtHHMM (current % 1440)) then t
  else t ++ [{ id := nextId t, date := d,
               start_time := fmtHHMM (current % 1440),
               end_time := fmtHHMM ((current + dur) % 1440),
               is_booked := false,
               customer_name := none, customer_email := none,
               customer_phone := none }]

/-- The while-loop of generate_timeslots (lines 46-62): while current < end,
run the body and advance current by the slot duration.  The loop is given
through a structural iteration bound so that it computes by kernel
reduction: each iteration advances current by dur ≥ 1, so end - current
iterations always suffice, and genLoop below passes exactly that bound.
The 0 < dur conjunct of the guard is a termination guard: with
slot_duration = 0 the Python loop never terminates, which a total function
cannot represent (every claim assumes a positive duration). -/
def genLoopF (d : String) (dur : Nat) : Nat → Nat → Nat → Table → Table
  | 0, _, _, t => t
  | fuel + 1, current, end_, t =>
    if current < end_ ∧ 0 < dur then
      genLoopF d dur fuel (current + dur) end_ (genStep d dur current t)
    else t

/-- The while-loop of lines 46-62, entered at its head. -/
def genLoop (d : String) (dur : Nat) (current end_ : Nat) (t : Table) : Table :=
  genLoopF d dur (end_ - current) current end_ t

/-- generate_timeslots (lines 41-65).  A connection is opened first; then
strptime parses the date (raising ValueError on a malformed date) and
datetime.replace validates the hours (raising ValueError when a value is
outside 0..23).  On either error the function has no try/finally, so the
connection it opened is never closed.  On success the loop runs, the
transaction commits and the connection is closed. -/
def generate_timeslots (date : String) (start_hour end_hour slot_duration : Nat)
    (t : Table) : FnOut :=
  match parseYMD date with
  | none => ⟨.error .valueError, t, false⟩
  | some _ =>
    if start_hour ≤ 23 ∧ end_hour ≤ 23 then
      ⟨.ok (), genLoop date slot_duration (start_hour * 60) (end_hour * 60) t, true⟩
    else ⟨.error .valueError, t, false⟩

/-- POST /generate-timeslots (lines 67-78).  An empty date is rejected with
400 before any connection is opened; any exception from generate_timeslots
is re-raised as HTTPException(500, str(e)).  The detail of that 500 is the
runtime-formatted ValueError text, represented by strPyExc. -/
def strPyExc : PyExc → String
  | .valueError => "ValueError (message text not modelled)"
  | .http s d => strHTTP s d

def create_timeslots (date : String) (t : Table) : EpOut :=
  if date = "" then ⟨⟨400, "Date is required"⟩, t, true⟩
  else
    match generate_timeslots date 9 17 60 t with
    | ⟨.ok _, t', c⟩ => ⟨⟨201, "Timeslots generated successfully"⟩, t', c⟩
    | ⟨.error e, t', c⟩ => ⟨⟨500, strPyExc e⟩, t', c⟩

/-! ### The booking manager (src/app.py lines 80-187) -/

/-- GET /available-timeslots (lines 80-92).  An empty date is rejected with
400 before the connection is opened; otherwise the rows with this date and
is_booked = 0 are returned and the connection is closed. -/
def get_available_timeslots (date : String) (t : Table) : ListOut :=
  if date = "" then ⟨.error ⟨400, "Date is required"⟩, true⟩
  else ⟨.ok (t.filter fun r => r.date == date && r.is_booked == false), true⟩

/-- The row update performed by a successful booking (lines 110-119): the
UPDATE matches on id alone. -/
def bookRow (slot_id : Nat) (nm em ph : String) (r : Slot) : Slot :=
  if r.id == slot_id then
    { r with is_booked := true, customer_name := some nm,
             customer_email := some em, customer_phone := some ph }
  else r

/-- POST /book-appointment (lines 94-128).  The connection is opened, then
inside try: SELECT the first row with this id and is_booked = 0; if none,
HTTPException(400, "Slot is already booked or does not exist") is raised --
but that raise happens inside the same try, so the blanket except Exception
catches it, rolls back, and re-raises HTTPException(500, str(e)).  On
success the UPDATE books every row with this id and stores the customer
fields.  The finally clause closes the connection on every path. -/
def book_appointment (slot_id : Nat) (nm em ph : String) (t : Table) : EpOut :=
  match t.find? (fun r => r.id == slot_id && r.is_booked == false) with
  | none =>
    ⟨⟨500, strHTTP 400 "Slot is already booked or does not exist"⟩, t, true⟩
  | some _ =>
    ⟨⟨201, "Appointment booked successfully"⟩, t.map (bookRow slot_id nm em ph), true⟩

/-- The row update performed by a successful cancellation (lines 147-155). -/
def cancelRow (slot_id : Nat) (r : Slot) : Slot :=
  if r.id == slot_id then
    { r with is_booked := false, customer_name := none,
             customer_email := none, customer_phone := none }
  else r

/-- POST /cancel-appointment (lines 130-164).  Python's `if not slot_id`
treats the integer 0 as falsy, so slot_id = 0 is rejected with
400 "Slot ID is required" before any connection is opened.  Otherwise:
SELECT the first row with this id and is_booked = 1; if none,
HTTPException(400, "No booked appointment found for this slot") is raised
inside the try, caught by except Exception and re-raised as
HTTPException(500, str(e)).  On success the UPDATE clears the booking.
The finally clause closes the connection on every path. -/
def cancel_appointment (slot_id : Nat) (t : Table) : EpOut :=
  if slot_id = 0 then ⟨⟨400, "Slot ID is required"⟩, t, true⟩
  else
    match t.find? (fun r => r.id == slot_id && r.is_booked == true) with
    | none =>
      ⟨⟨500, strHTTP 400 "No booked appointment found for this slot"⟩, t, true⟩
    | some _ =>
      ⟨⟨200, "Appointment cancelled successfully"⟩, t.map (cancelRow slot_id), true⟩

/-- GET /booked-appointments (lines 166-187).  Python's `if date:` treats
both None and the empty string as falsy, so both return all booked rows;
a non-empty date filters by it.  The finally clause closes the connection. -/
def get_booked_appointments (date : Option String) (t : Table) : ListOut :=
  match date with
  | some d =>
    if d = "" then ⟨.ok (t.filter fun r => r.is_booked), true⟩
    else ⟨.ok (t.filter fun r => r.is_booked && r.date == d), true⟩
  | none => ⟨.ok (t.filter fun r => r.is_booked), true⟩

/-! ### Order and injectivity of the HH:MM formatting

The stored start_time and end_time columns are compared as text; these
lemmas relate that lexicographic comparison to the minute values the
strings were formatted from. -/

lemma cons_lt_cons_iff {a b : Char} {l₁ l₂ : List Char} :
    (a :: l₁ : List Char) < (b :: l₂) ↔ a < b ∨ (a = b ∧ l₁ < l₂) := by
  constructor
  · intro h
    cases h with
    | cons h => exact Or.inr ⟨rfl, h⟩
    | rel h => exact Or.inl h
  · rintro (h | ⟨rfl, h⟩)
    · exact List.Lex.rel h
    · exact List.Lex.cons h

lemma nil_lt_nil_iff : (([] : List Char) < []) ↔ False :=
  iff_false_intro (List.Lex.not_nil_right _ _)

lemma digit_lt_base : ∀ i < 10, ∀ j < 10, (digitChar i < digitChar j ↔ i < j) := by decide

lemma digit_eq_base : ∀ i < 10, ∀ j < 10, (digitChar i = digitChar j ↔ i = j) := by decide

lemma digit_lt_iff (i j : Nat) : digitChar (i % 10) < digitChar (j % 10) ↔ i % 10 < j % 10 :=
  digit_lt_base _ (Nat.mod_lt _ (by omega)) _ (Nat.mod_lt _ (by omega))

lemma digit_eq_iff (i j : Nat) : digitChar (i % 10) = digitChar (j % 10) ↔ i % 10 = j % 10 :=
  digit_eq_base _ (Nat.mod_lt _ (by omega)) _ (Nat.mod_lt _ (by omega))

lemma fmt_data (m : Nat) : (fmtHHMM m).data =
    [digitChar (m / 60 / 10 % 10), digitChar (m / 60 % 10), ':',
     digitChar (m % 60 / 10 % 10), digitChar (m % 60 % 10)] := rfl

lemma fmt_lt_iff {a b : Nat} (ha : a < 1440) (hb : b < 1440) :
    strLt (fmtHHMM a) (fmtHHMM b) ↔ a < b := by
  unfold strLt
  rw [fmt_data, fmt_data]
  simp only [cons_lt_cons_iff, nil_lt_nil_iff, digit_lt_iff, digit_eq_iff,
    lt_self_iff_false, and_false, false_or, or_false, true_and, and_true,
    eq_self_iff_true]
  omega

lemma fmt_inj {a b : Nat} (ha : a < 1440) (hb : b < 1440)
    (h : fmtHHMM a = fmtHHMM b) : a = b := by
  have hd := congrArg String.data h
  rw [fmt_data, fmt_data] at hd
  simp only [List.cons.injEq, and_true, digit_eq_iff, eq_self_iff_true, true_and] at hd
  omega

/-! ### Structural lemmas about the generation loop -/

lemma slotExists_append (t l : Table) (d s : String) :
    slotExists (t ++ l) d s = (slotExists t d s || slotExists l d s) :=
  List.any_append

lemma slotExists_iff (t : Table) (d s : String) :
    slotExists t d s = true ↔ ∃ r ∈ t, r.date = d ∧ r.start_time = s := by
  simp [slotExists, List.any_eq_true, Bool.and_eq_true, beq_iff_eq]

lemma genStep_eq_of_exists {t : Table} {d : String} {dur c : Nat}
    (h : slotExists t d (fmtHHMM (c % 1440)) = true) : genStep d dur c t = t := by
  unfold genStep
  rw [if_pos h]

lemma genStep_append (d : String) (dur c : Nat) (t : Table) :
    ∃ l, genStep d dur c t = t ++ l := by
  unfold genStep
  split
  · exact ⟨[], (List.append_nil t).symm⟩
  · exact ⟨_, rfl⟩

lemma slotExists_genStep_self (d : String) (dur c : Nat) (t : Table) :
    slotExists (genStep d dur c t) d (fmtHHMM (c % 1440)) = true := by
  unfold genStep
  split
  · assumption
  · rw [slotExists_append]
    simp [slotExists]

lemma slotExists_genStep_mono {t : Table} {d s : String} {dur c : Nat}
    (h : slotExists t d s = true) : slotExists (genStep d dur c t) d s = true := by
  obtain ⟨l, hl⟩ := genStep_append d dur c t
  rw [hl, slotExists_append, h, Bool.true_or]

lemma genLoopF_append (d : String) (dur e : Nat) :
    ∀ fuel c (t : Table), ∃ l, genLoopF d dur fuel c e t = t ++ l := by
  intro fuel
  induction fuel with
  | zero => exact fun c t => ⟨[], (List.append_nil t).symm⟩
  | succ fuel ih =>
    intro c t
    simp only [genLoopF]
    split
    · obtain ⟨l₀, hl₀⟩ := genStep_append d dur c t
      obtain ⟨l₁, hl₁⟩ := ih (c + dur) (genStep d dur c t)
      exact ⟨l₀ ++ l₁, by rw [hl₁, hl₀, List.append_assoc]⟩
    · exact ⟨[], (List.append_nil t).symm⟩

lemma slotExists_genLoopF_mono {d s : String} {dur e : Nat} :
    ∀ fuel c {t : Table}, slotExists t d s = true →
      slotExists (genLoopF d dur fuel c e t) d s = true := by
  intro fuel
  induction fuel with
  | zero => exact fun c t h => h
  | succ fuel ih =>
    intro c t h
    simp only [genLoopF]
    split
    · exact ih (c + dur) (slotExists_genStep_mono h)
    · exact h

lemma genLoopF_idem (d : String) (dur e : Nat) :
    ∀ fuel c (t : Table),
      genLoopF d dur fuel c e (genLoopF d dur fuel c e t) = genLoopF d dur fuel c e t := by
  intro fuel
  induction fuel with
  | zero => exact fun c t => rfl
  | succ fuel ih =>
    intro c t
    by_cases hg : c < e ∧ 0 < dur
    · have hrun : genLoopF d dur (fuel + 1) c e t =
          genLoopF d dur fuel (c + dur) e (genStep d dur c t) := by
        simp only [genLoopF, if_pos hg]
      have hex : slotExists (genLoopF d dur fuel (c + dur) e (genStep d dur c t)) d
          (fmtHHMM (c % 1440)) = true :=
        slotExists_genLoopF_mono fuel (c + dur) (slotExists_genStep_self d dur c t)
      rw [hrun]
      simp only [genLoopF, if_pos hg, genStep_eq_of_exists hex]
      exact ih (c + dur) (genStep d dur c t)
    · simp only [genLoopF, if_neg hg]

lemma genLoop_idem (d : String) (dur c e : Nat) (t : Table) :
    genLoop d dur c e (genLoop d dur c e t) = genLoop d dur c e t :=
  genLoopF_idem d dur e (e - c) c t

/-! ### Claim C4: idempotence of slot generation -/

/-- C4: slot generation is idempotent.  For every date and parameters and
every starting table, if generate succeeds then it only appended new rows
(never modified an existing row, booked or not), and running it again with
the same parameters succeeds and leaves the table exactly as after the
first run. -/
theorem c4_generate_idempotent (date : String) (sh eh dur : Nat) (t : Table)
    (h : (generate_timeslots date sh eh dur t).result = .ok ()) :
    (∃ new, (generate_timeslots date sh eh dur t).table = t ++ new) ∧
    generate_timeslots date sh eh dur ((generate_timeslots date sh eh dur t).table) =
      ⟨.ok (), (generate_timeslots date sh eh dur t).table, true⟩ := by
  cases hp : parseYMD date with
  | none => simp [generate_timeslots, hp] at h
  | some v =>
    by_cases hh : sh ≤ 23 ∧ eh ≤ 23
    · have he : generate_timeslots date sh eh dur t =
          ⟨.ok (), genLoop date dur (sh * 60) (eh * 60) t, true⟩ := by
        simp [generate_timeslots, hp, hh]
      rw [he]
      exact ⟨genLoopF_append date dur (eh * 60) (eh * 60 - sh * 60) (sh * 60) t,
        by simp [generate_timeslots, hp, hh, genLoop_idem]⟩
    · simp [generate_timeslots, hp, hh] at h

/-- Witness for C4 at the concrete input of the spec's example. -/
theorem c4_generate_idempotent_witness :
    (generate_timeslots "2024-06-01" 9 17 60 []).result = .ok () ∧
    ((∃ new, (generate_timeslots "2024-06-01" 9 17 60 []).table = [] ++ new) ∧
     generate_timeslots "2024-06-01" 9 17 60
         ((generate_timeslots "2024-06-01" 9 17 60 []).table) =
       ⟨.ok (), (generate_timeslots "2024-06-01" 9 17 60 []).table, true⟩) :=
  ⟨by decide, c4_generate_idempotent "2024-06-01" 9 17 60 [] (by decide)⟩

/-! ### Claim C5: the generated slots are exactly the spec's grid -/

/-- The observable content of a row apart from its auto-assigned id. -/
def slotTimes (r : Slot) : String × String × String :=
  (r.date, r.start_time, r.end_time)

/-- Iteration-bounded form of the spec's slot grid; fuel as in genLoopF. -/
def specGridF (dur : Nat) : Nat → Nat → Nat → List (Nat × Nat)
  | 0, _, _ => []
  | fuel + 1, current, end_ =>
    if current < end_ ∧ 0 < dur then
      (current, current + dur) :: specGridF dur fuel (current + dur) end_
    else []

/-- The slot grid exactly as the specification words it: starting at
startHour:00, repeatedly emit a slot [current, current + duration) and
advance current to the slot's end, while current < endHour:00.  This
definition follows the spec's sentence; theorem c5_generate_grid compares
the code's behaviour against it. -/
def specSlots (dur current end_ : Nat) : List (Nat × Nat) :=
  specGridF dur (end_ - current) current end_

lemma genLoopF_fresh (d : String) (dur e : Nat) (he : e ≤ 1440) :
    ∀ fuel c (t : Table),
      (∀ r ∈ t, r.date = d → ∀ m, c ≤ m → m < 1440 → r.start_time ≠ fmtHHMM m) →
      (genLoopF d dur fuel c e t).map slotTimes =
        t.map slotTimes ++ (specGridF dur fuel c e).map
          (fun p => (d, fmtHHMM (p.1 % 1440), fmtHHMM (p.2 % 1440))) := by
  intro fuel
  induction fuel with
  | zero => intro c t _; simp [genLoopF, specGridF]
  | succ fuel ih =>
    intro c t hfresh
    by_cases hg : c < e ∧ 0 < dur
    · have hc : c % 1440 = c := Nat.mod_eq_of_lt (by omega)
      have hex : ¬ slotExists t d (fmtHHMM (c % 1440)) = true := by
        rw [hc]
        intro hx
        obtain ⟨r, hr, hrd, hrs⟩ := (slotExists_iff t d (fmtHHMM c)).mp hx
        exact hfresh r hr hrd c le_rfl (by omega) hrs
      have hstep : genStep d dur c t = t ++
          [{ id := nextId t, date := d, start_time := fmtHHMM (c % 1440),
             end_time := fmtHHMM ((c + dur) % 1440), is_booked := false,
             customer_name := none, customer_email := none,
             customer_phone := none }] := by
        unfold genStep
        rw [if_neg hex]
      have hfresh' : ∀ r ∈ genStep d dur c t, r.date = d →
          ∀ m, c + dur ≤ m → m < 1440 → r.start_time ≠ fmtHHMM m := by
        rw [hstep]
        intro r hr hrd m hm hm14
        rcases List.mem_append.mp hr with hmem | hmem
        · exact hfresh r hmem hrd m (by omega) hm14
        · have hr' := List.mem_singleton.mp hmem
          subst hr'
          simp only [hc]
          intro heq
          have := fmt_inj (by omega) hm14 heq
          omega
      simp only [genLoopF, specGridF, if_pos hg]
      rw [ih (c + dur) (genStep d dur c t) hfresh', hstep]
      simp [slotTimes, List.map_append]
    · simp [genLoopF, specGridF, if_neg hg]

/-- C5: for every valid date, valid hours and a table fresh for that date,
generate_timeslots succeeds and emits exactly the slots of the spec's
grid - starting at startHour:00, repeatedly the slot
[current, current + duration) while current < endHour:00; and in
particular generate("2024-06-01") with the defaults (9, 17, 60 minutes)
on an empty table creates exactly the eight slots 09:00-10:00 through
16:00-17:00. -/
theorem c5_generate_grid :
    (∀ (date : String) (sh eh dur : Nat) (t : Table),
        (parseYMD date).isSome = true → sh ≤ 23 → eh ≤ 23 →
        (∀ r ∈ t, r.date ≠ date) →
        (generate_timeslots date sh eh dur t).result = .ok () ∧
        ((generate_timeslots date sh eh dur t).table).map slotTimes =
          t.map slotTimes ++ (specSlots dur (sh * 60) (eh * 60)).map
            (fun p => (date, fmtHHMM (p.1 % 1440), fmtHHMM (p.2 % 1440)))) ∧
    create_timeslots "2024-06-01" [] =
      ⟨⟨201, "Timeslots generated successfully"⟩,
       [⟨1, "2024-06-01", "09:00", "10:00", false, none, none, none⟩,
        ⟨2, "2024-06-01", "10:00", "11:00", false, none, none, none⟩,
        ⟨3, "2024-06-01", "11:00", "12:00", false, none, none, none⟩,
        ⟨4, "2024-06-01", "12:00", "13:00", false, none, none, none⟩,
        ⟨5, "2024-06-01", "13:00", "14:00", false, none, none, none⟩,
        ⟨6, "2024-06-01", "14:00", "15:00", false, none, none, none⟩,
        ⟨7, "2024-06-01", "15:00", "16:00", false, none, none, none⟩,
        ⟨8, "2024-06-01", "16:00", "17:00", false, none, none, none⟩], true⟩ := by
  constructor
  · intro date sh eh dur t hp h1 h2 hfresh
    obtain ⟨v, hv⟩ := Option.isSome_iff_exists.mp hp
    have hh : sh ≤ 23 ∧ eh ≤ 23 := ⟨h1, h2⟩
    have ht : (generate_timeslots date sh eh dur t).table =
        genLoop date dur (sh * 60) (eh * 60) t := by
      simp [generate_timeslots, hv, hh]
    refine ⟨by simp [generate_timeslots, hv, hh], ?_⟩
    rw [ht]
    exact genLoopF_fresh date dur (eh * 60) (by omega) (eh * 60 - sh * 60) (sh * 60) t
      (fun r hr hrd => absurd hrd (hfresh r hr))
  · decide

/-- Witness for the general part of C5 at a concrete fresh input. -/
theorem c5_generate_grid_witness :
    ((parseYMD "2024-06-02").isSome = true ∧
      (∀ r ∈ ([] : Table), r.date ≠ "2024-06-02")) ∧
    ((generate_timeslots "2024-06-02" 9 17 60 []).result = .ok () ∧
     ((generate_timeslots "2024-06-02" 9 17 60 []).table).map slotTimes =
       ([] : Table).map slotTimes ++ (specSlots 60 (9 * 60) (17 * 60)).map
         (fun p => ("2024-06-02", fmtHHMM (p.1 % 1440), fmtHHMM (p.2 % 1440)))) :=
  ⟨⟨by decide, by simp⟩,
   c5_generate_grid.1 "2024-06-02" 9 17 60 [] (by decide) (by omega) (by omega) (by simp)⟩

/-! ### Claim C6: slot invariants over sequences of generate calls -/

/-- No two rows of the table share the (date, start_time) pair. -/
def pairsOk (t : Table) : Prop :=
  t.Pairwise fun r s => ¬(r.date = s.date ∧ r.start_time = s.start_time)

/-- Every row's stored start time is lexicographically below its end time. -/
def timesOk (t : Table) : Prop := ∀ r ∈ t, strLt r.start_time r.end_time

lemma pairsOk_genStep (d : String) (dur c : Nat) {t : Table} (h : pairsOk t) :
    pairsOk (genStep d dur c t) := by
  unfold genStep
  split
  · exact h
  · next hex =>
    refine List.pairwise_append.mpr ⟨h, by simp, ?_⟩
    intro a ha b hb
    have hb' := List.mem_singleton.mp hb
    subst hb'
    rintro ⟨h1, h2⟩
    exact hex ((slotExists_iff _ _ _).mpr ⟨a, ha, h1, h2⟩)

lemma pairsOk_genLoopF (d : String) (dur e : Nat) :
    ∀ fuel c {t : Table}, pairsOk t → pairsOk (genLoopF d dur fuel c e t) := by
  intro fuel
  induction fuel with
  | zero => exact fun c t h => h
  | succ fuel ih =>
    intro c t h
    simp only [genLoopF]
    split
    · exact ih (c + dur) (pairsOk_genStep d dur c h)
    · exact h

lemma timesOk_genStep (d : String) {dur c : Nat} (hdur : 0 < dur)
    (hc : c + dur < 1440) {t : Table} (h : timesOk t) :
    timesOk (genStep d dur c t) := by
  unfold genStep
  split
  · exact h
  · intro r hr
    rcases List.mem_append.mp hr with hm | hm
    · exact h r hm
    · have hr' := List.mem_singleton.mp hm
      subst hr'
      show strLt (fmtHHMM (c % 1440)) (fmtHHMM ((c + dur) % 1440))
      rw [Nat.mod_eq_of_lt (by omega), Nat.mod_eq_of_lt hc]
      exact (fmt_lt_iff (by omega) hc).mpr (by omega)

lemma timesOk_genLoopF (d : String) (dur e : Nat) (he : e + dur ≤ 1440) :
    ∀ fuel c {t : Table}, timesOk t → timesOk (genLoopF d dur fuel c e t) := by
  intro fuel
  induction fuel with
  | zero => exact fun c t h => h
  | succ fuel ih =>
    intro c t h
    simp only [genLoopF]
    split
    · next hg => exact ih (c + dur) (timesOk_genStep d hg.2 (by omega) h)
    · exact h

lemma pairsOk_generate (date : String) (sh eh dur : Nat) {t : Table} (h : pairsOk t) :
    pairsOk (generate_timeslots date sh eh dur t).table := by
  cases hp : parseYMD date with
  | none => simpa [generate_timeslots, hp] using h
  | some v =>
    by_cases hh : sh ≤ 23 ∧ eh ≤ 23
    · have := pairsOk_genLoopF date dur (eh * 60) (eh * 60 - sh * 60) (sh * 60) h
      simpa [generate_timeslots, hp, hh, genLoop] using this
    · simpa [generate_timeslots, hp, hh] using h

lemma timesOk_generate (date : String) (sh eh dur : Nat)
    (hmid : eh * 60 + dur ≤ 1440) {t : Table} (h : timesOk t) :
    timesOk (generate_timeslots date sh eh dur t).table := by
  cases hp : parseYMD date with
  | none => simpa [generate_timeslots, hp] using h
  | some v =>
    by_cases hh : sh ≤ 23 ∧ eh ≤ 23
    · have := timesOk_genLoopF date dur (eh * 60) hmid (eh * 60 - sh * 60) (sh * 60) h
      simpa [generate_timeslots, hp, hh, genLoop] using this
    · simpa [generate_timeslots, hp, hh] using h

/-- Parameters of one generate_timeslots call. -/
structure GenCall where
  date : String
  start_hour : Nat
  end_hour : Nat
  slot_duration : Nat

/-- A sequence of generate calls applied in order; each call's resulting
table feeds the next, and a failed call leaves the table unchanged. -/
def runCalls (l : List GenCall) (t : Table) : Table :=
  l.foldl (fun t c =>
    (generate_timeslots c.date c.start_hour c.end_hour c.slot_duration t).table) t

lemma runCalls_pairsOk : ∀ (l : List GenCall) {t : Table}, pairsOk t →
    pairsOk (runCalls l t)
  | [], _, h => h
  | c :: l, _, h =>
    runCalls_pairsOk l (pairsOk_generate c.date c.start_hour c.end_hour c.slot_duration h)

lemma runCalls_timesOk : ∀ (l : List GenCall),
    (∀ c ∈ l, c.end_hour * 60 + c.slot_duration ≤ 1440) →
    ∀ {t : Table}, timesOk t → timesOk (runCalls l t)
  | [], _, _, h => h
  | c :: l, hv, _, h =>
    runCalls_timesOk l (fun x hx => hv x (List.mem_cons_of_mem c hx))
      (timesOk_generate c.date c.start_hour c.end_hour c.slot_duration
        (hv c (List.mem_cons_self c l)) h)

/-- Counterexample to C6 as stated: the call
generate("2024-06-01", 22, 23, 180) has valid inputs in the claim's sense
(valid date, startHour < endHour, positive duration), yet the single row it
produces stores start_time "22:00" and end_time "01:00" - the slot end
rolled past midnight and strftime wrapped it - so start_time < end_time
fails as a string comparison. -/
theorem c6_counterexample :
    (parseYMD "2024-06-01").isSome = true ∧ 22 < 23 ∧ 0 < 180 ∧
    (generate_timeslots "2024-06-01" 22 23 180 []).table =
      [⟨1, "2024-06-01", "22:00", "01:00", false, none, none, none⟩] ∧
    ¬ strLt "22:00" "01:00" := by decide

/-- C6 amended: over every sequence of generate calls starting from an
empty table, no two rows ever share the (date, start_time) pair; and if
additionally no call can cross midnight (endHour*60 + slotDurationMinutes
at most 1440), every row satisfies start_time < end_time as stored HH:MM
strings. -/
theorem c6_amended (calls : List GenCall) :
    pairsOk (runCalls calls []) ∧
    ((∀ c ∈ calls, c.end_hour * 60 + c.slot_duration ≤ 1440) →
      ∀ r ∈ runCalls calls [], strLt r.start_time r.end_time) :=
  ⟨runCalls_pairsOk calls List.Pairwise.nil,
   fun h => runCalls_timesOk calls h (fun _ hr => nomatch hr)⟩

/-- Witness for C6 amended at a concrete call sequence. -/
theorem c6_amended_witness :
    (∀ c ∈ [GenCall.mk "2024-06-01" 9 17 60, GenCall.mk "2024-06-02" 8 12 30],
        c.end_hour * 60 + c.slot_duration ≤ 1440) ∧
    pairsOk (runCalls [GenCall.mk "2024-06-01" 9 17 60,
        GenCall.mk "2024-06-02" 8 12 30] []) ∧
    (∀ r ∈ runCalls [GenCall.mk "2024-06-01" 9 17 60,
        GenCall.mk "2024-06-02" 8 12 30] [], strLt r.start_time r.end_time) :=
  ⟨by decide,
   (c6_amended [GenCall.mk "2024-06-01" 9 17 60, GenCall.mk "2024-06-02" 8 12 30]).1,
   (c6_amended [GenCall.mk "2024-06-01" 9 17 60, GenCall.mk "2024-06-02" 8 12 30]).2
     (by decide)⟩

/-! ### Claim C7: booking a free slot updates both listings -/

/-- Extract the slot list of a listing endpoint's successful response. -/
def listOf (o : ListOut) : List Slot :=
  match o.result with
  | .ok l => l
  | .error _ => []

lemma bookRow_id (sid : Nat) (nm em ph : String) (x : Slot) :
    (bookRow sid nm em ph x).id = x.id := by
  unfold bookRow
  split <;> rfl

lemma bookRow_self {sid : Nat} (nm em ph : String) {x : Slot} (h : x.id = sid) :
    bookRow sid nm em ph x =
      { x with is_booked := true, customer_name := some nm,
               customer_email := some em, customer_phone := some ph } := by
  unfold bookRow
  rw [if_pos (by simp [h])]

/-- C7: booking an existing free slot succeeds with 201; afterwards the
available listing for its date no longer contains the slot id, while the
booked listing - filtered by that date or unfiltered - contains the slot
with exactly the submitted customer name, email and phone. -/
theorem c7_book_listings (sid : Nat) (nm em ph D : String) (t : Table) (r : Slot)
    (hr : r ∈ t) (hid : r.id = sid) (hfree : r.is_booked = false)
    (hdate : r.date = D) (hD : D ≠ "") :
    (book_appointment sid nm em ph t).resp =
      ⟨201, "Appointment booked successfully"⟩ ∧
    (∀ s ∈ listOf (get_available_timeslots D (book_appointment sid nm em ph t).table),
        s.id ≠ sid) ∧
    (∃ s ∈ listOf (get_booked_appointments (some D)
          (book_appointment sid nm em ph t).table),
        s.id = sid ∧ s.customer_name = some nm ∧ s.customer_email = some em ∧
          s.customer_phone = some ph) ∧
    (∃ s ∈ listOf (get_booked_appointments none
          (book_appointment sid nm em ph t).table),
        s.id = sid ∧ s.customer_name = some nm ∧ s.customer_email = some em ∧
          s.customer_phone = some ph) := by
  have hpred : (fun x => x.id == sid && x.is_booked == false) r = true := by
    simp [hid, hfree]
  have hfind : t.find? (fun x => x.id == sid && x.is_booked == false) ≠ none := by
    intro hn
    exact List.find?_eq_none.mp hn r hr hpred
  obtain ⟨s₀, hs₀⟩ := Option.ne_none_iff_exists'.mp hfind
  have hbook : book_appointment sid nm em ph t =
      ⟨⟨201, "Appointment booked successfully"⟩, t.map (bookRow sid nm em ph), true⟩ := by
    unfold book_appointment
    rw [hs₀]
  rw [hbook]
  refine ⟨rfl, ?_, ?_, ?_⟩
  · intro s hs
    have hlist : listOf (get_available_timeslots D (t.map (bookRow sid nm em ph))) =
        (t.map (bookRow sid nm em ph)).filter
          (fun x => x.date == D && x.is_booked == false) := by
      simp [get_available_timeslots, listOf, hD]
    rw [hlist] at hs
    obtain ⟨hmem, hp⟩ := List.mem_filter.mp hs
    obtain ⟨x, hx, rfl⟩ := List.mem_map.mp hmem
    intro hsid
    have hxid : x.id = sid := by rw [← bookRow_id sid nm em ph x]; exact hsid
    rw [bookRow_self nm em ph hxid] at hp
    simp at hp
  · refine ⟨bookRow sid nm em ph r, ?_, ?_⟩
    · have hlist : listOf (get_booked_appointments (some D)
          (t.map (bookRow sid nm em ph))) =
          (t.map (bookRow sid nm em ph)).filter
            (fun x => x.is_booked && x.date == D) := by
        simp [get_booked_appointments, listOf, hD]
      rw [hlist]
      refine List.mem_filter.mpr ⟨List.mem_map_of_mem _ hr, ?_⟩
      rw [bookRow_self nm em ph hid]
      simp [hdate]
    · rw [bookRow_self nm em ph hid]
      simpa using hid
  · refine ⟨bookRow sid nm em ph r, ?_, ?_⟩
    · have hlist : listOf (get_booked_appointments none
          (t.map (bookRow sid nm em ph))) =
          (t.map (bookRow sid nm em ph)).filter (fun x => x.is_booked) := by
        simp [get_booked_appointments, listOf]
      rw [hlist]
      refine List.mem_filter.mpr ⟨List.mem_map_of_mem _ hr, ?_⟩
      rw [bookRow_self nm em ph hid]
    · rw [bookRow_self nm em ph hid]
      simpa using hid

/-- Witness for C7 at a concrete one-row table. -/
theorem c7_book_listings_witness :
    (⟨1, "2024-06-01", "09:00", "10:00", false, none, none, none⟩ ∈
        ([⟨1, "2024-06-01", "09:00", "10:00", false, none, none, none⟩] : Table) ∧
      "2024-06-01" ≠ "") ∧
    ((book_appointment 1 "Alice" "a@x.com" "555-1"
        [⟨1, "2024-06-01", "09:00", "10:00", false, none, none, none⟩]).resp =
      ⟨201, "Appointment booked successfully"⟩ ∧
    (∀ s ∈ listOf (get_available_timeslots "2024-06-01"
        (book_appointment 1 "Alice" "a@x.com" "555-1"
          [⟨1, "2024-06-01", "09:00", "10:00", false, none, none, none⟩]).table),
        s.id ≠ 1) ∧
    (∃ s ∈ listOf (get_booked_appointments (some "2024-06-01")
        (book_appointment 1 "Alice" "a@x.com" "555-1"
          [⟨1, "2024-06-01", "09:00", "10:00", false, none, none, none⟩]).table),
        s.id = 1 ∧ s.customer_name = some "Alice" ∧ s.customer_email = some "a@x.com" ∧
          s.customer_phone = some "555-1") ∧
    (∃ s ∈ listOf (get_booked_appointments none
        (book_appointment 1 "Alice" "a@x.com" "555-1"
          [⟨1, "2024-06-01", "09:00", "10:00", false, none, none, none⟩]).table),
        s.id = 1 ∧ s.customer_name = some "Alice" ∧ s.customer_email = some "a@x.com" ∧
          s.customer_phone = some "555-1")) :=
  ⟨⟨List.mem_singleton.mpr rfl, by decide⟩,
   c7_book_listings 1 "Alice" "a@x.com" "555-1" "2024-06-01"
     [⟨1, "2024-06-01", "09:00", "10:00", false, none, none, none⟩]
     ⟨1, "2024-06-01", "09:00", "10:00", false, none, none, none⟩
     (List.mem_singleton.mpr rfl) rfl rfl rfl (by decide)⟩

/-! ### Claim C8: the effect and frame of a successful cancellation -/

lemma cancelRow_id (sid : Nat) (x : Slot) : (cancelRow sid x).id = x.id := by
  unfold cancelRow
  split <;> rfl

lemma cancelRow_self {sid : Nat} {x : Slot} (h : x.id = sid) :
    cancelRow sid x =
      { x with is_booked := false, customer_name := none,
               customer_email := none, customer_phone := none } := by
  unfold cancelRow
  rw [if_pos (by simp [h])]

lemma cancelRow_other {sid : Nat} {x : Slot} (h : x.id ≠ sid) : cancelRow sid x = x := by
  unfold cancelRow
  rw [if_neg (by simp [h])]

/-- C8: cancelling a booked slot succeeds with 200 and the whole effect is
the per-row update cancelRow applied pointwise - is_booked becomes false
and the three customer fields become none, while id, date, start_time and
end_time are untouched; rows with a different id are unchanged and remain
in the table, and the cancelled slot reappears in the available listing
for its date with its times intact and its customer fields cleared. -/
theorem c8_cancel_effect (sid : Nat) (t : Table) (r : Slot)
    (hsid : sid ≠ 0) (hr : r ∈ t) (hid : r.id = sid) (hbooked : r.is_booked = true)
    (hD : r.date ≠ "") :
    cancel_appointment sid t =
      ⟨⟨200, "Appointment cancelled successfully"⟩, t.map (cancelRow sid), true⟩ ∧
    (∀ x ∈ t, x.id ≠ sid → x ∈ t.map (cancelRow sid)) ∧
    (∃ s ∈ listOf (get_available_timeslots r.date (t.map (cancelRow sid))),
        s.id = sid ∧ s.date = r.date ∧ s.start_time = r.start_time ∧
        s.end_time = r.end_time ∧ s.is_booked = false ∧
        s.customer_name = none ∧ s.customer_email = none ∧
        s.customer_phone = none) := by
  have hpred : (fun x => x.id == sid && x.is_booked == true) r = true := by
    simp [hid, hbooked]
  have hfind : t.find? (fun x => x.id == sid && x.is_booked == true) ≠ none := by
    intro hn
    exact List.find?_eq_none.mp hn r hr hpred
  obtain ⟨s₀, hs₀⟩ := Option.ne_none_iff_exists'.mp hfind
  have hcan : cancel_appointment sid t =
      ⟨⟨200, "Appointment cancelled successfully"⟩, t.map (cancelRow sid), true⟩ := by
    unfold cancel_appointment
    rw [if_neg hsid, hs₀]
  refine ⟨hcan, ?_, ?_⟩
  · intro x hx hxid
    have hmem := List.mem_map_of_mem (cancelRow sid) hx
    rwa [cancelRow_other hxid] at hmem
  · refine ⟨cancelRow sid r, ?_, ?_⟩
    · have hlist : listOf (get_available_timeslots r.date (t.map (cancelRow sid))) =
          (t.map (cancelRow sid)).filter
            (fun x => x.date == r.date && x.is_booked == false) := by
        simp [get_available_timeslots, listOf, hD]
      rw [hlist]
      refine List.mem_filter.mpr ⟨List.mem_map_of_mem _ hr, ?_⟩
      rw [cancelRow_self hid]
      simp
    · rw [cancelRow_self hid]
      simp [hid]

/-- Witness for C8 at a concrete one-row table holding a booked slot. -/
theorem c8_cancel_effect_witness :
    ((1 : Nat) ≠ 0 ∧
      (⟨1, "2024-06-01", "09:00", "10:00", true, some "Alice", some "a@x.com",
          some "555-1"⟩ : Slot) ∈
        ([⟨1, "2024-06-01", "09:00", "10:00", true, some "Alice", some "a@x.com",
          some "555-1"⟩] : Table) ∧
      "2024-06-01" ≠ "") ∧
    (cancel_appointment 1
        [⟨1, "2024-06-01", "09:00", "10:00", true, some "Alice", some "a@x.com",
          some "555-1"⟩] =
      ⟨⟨200, "Appointment cancelled successfully"⟩,
        ([⟨1, "2024-06-01", "09:00", "10:00", true, some "Alice", some "a@x.com",
          some "555-1"⟩] : Table).map (cancelRow 1), true⟩ ∧
    (∀ x ∈ ([⟨1, "2024-06-01", "09:00", "10:00", true, some "Alice", some "a@x.com",
          some "555-1"⟩] : Table), x.id ≠ 1 →
        x ∈ ([⟨1, "2024-06-01", "09:00", "10:00", true, some "Alice", some "a@x.com",
          some "555-1"⟩] : Table).map (cancelRow 1)) ∧
    (∃ s ∈ listOf (get_available_timeslots "2024-06-01"
        (([⟨1, "2024-06-01", "09:00", "10:00", true, some "Alice", some "a@x.com",
          some "555-1"⟩] : Table).map (cancelRow 1))),
        s.id = 1 ∧ s.date = "2024-06-01" ∧ s.start_time = "09:00" ∧
        s.end_time = "10:00" ∧ s.is_booked = false ∧
        s.customer_name = none ∧ s.customer_email = none ∧
        s.customer_phone = none)) :=
  ⟨⟨by decide, List.mem_singleton.mpr rfl, by decide⟩,
   c8_cancel_effect 1
     [⟨1, "2024-06-01", "09:00", "10:00", true, some "Alice", some "a@x.com",
       some "555-1"⟩]
     ⟨1, "2024-06-01", "09:00", "10:00", true, some "Alice", some "a@x.com",
       some "555-1"⟩
     (by decide) (List.mem_singleton.mpr rfl) rfl rfl (by decide)⟩

/-! ### Claims C1 and C2: conflict failures are reported as 500, not 400 -/

/-- C1 (code bug): booking a nonexistent or already-booked slot does fail
and does mutate nothing, but the precondition failure is observed by the
caller as a 500 server error, not the 400 client error the claim
describes: the endpoint's own HTTPException(400, "Slot is already booked
or does not exist") is caught by its blanket except Exception and
re-raised as HTTPException(500, str(e)).  Evaluated at two failing
inputs: slot id 1 on an empty table (nonexistent) and slot id 1 on a
table whose only slot is already booked. -/
theorem c1_book_conflict_reported_500 :
    book_appointment 1 "Alice" "a@x.com" "555-1" [] =
      ⟨⟨500, "400: Slot is already booked or does not exist"⟩, [], true⟩ ∧
    book_appointment 1 "Bob" "b@x.com" "555-2"
        [⟨1, "2024-06-01", "09:00", "10:00", true, some "Alice", some "a@x.com",
          some "555-1"⟩] =
      ⟨⟨500, "400: Slot is already booked or does not exist"⟩,
        [⟨1, "2024-06-01", "09:00", "10:00", true, some "Alice", some "a@x.com",
          some "555-1"⟩], true⟩ := by decide

/-- C2 (code bug): cancelling a nonexistent slot (id 5 on an empty table)
or a free slot fails without mutating any row, as the claim requires, but
the failure is reported as a 500 server error, not 400: the endpoint's
HTTPException(400, "No booked appointment found for this slot") is caught
by its own except Exception and re-raised as 500. -/
theorem c2_cancel_conflict_reported_500 :
    cancel_appointment 5 [] =
      ⟨⟨500, "400: No booked appointment found for this slot"⟩, [], true⟩ ∧
    cancel_appointment 1
        [⟨1, "2024-06-01", "09:00", "10:00", false, none, none, none⟩] =
      ⟨⟨500, "400: No booked appointment found for this slot"⟩,
        [⟨1, "2024-06-01", "09:00", "10:00", false, none, none, none⟩], true⟩ := by
  decide

/-! ### Claim C3: malformed dates in generate-timeslots -/

/-- Counterexample to C3 as stated: the malformed date "bad" is reported
with status 500 (a server-error response), not a client-error response. -/
theorem c3_counterexample :
    parseYMD "bad" = none ∧
    (create_timeslots "bad" []).resp.status = 500 ∧
    (create_timeslots "bad" []).resp.status ≠ 400 := by decide

/-- C3 amended: a non-empty date string that does not parse as a calendar
date makes generate-timeslots fail with status 500 - the ValueError from
strptime is caught by the endpoint's catch-all and re-raised as an
InternalError-style HTTPException - and no slot row is inserted.  (Only
the empty date yields the 400 "Date is required" client error.) -/
theorem c3_amended (date : String) (t : Table)
    (h1 : date ≠ "") (h2 : parseYMD date = none) :
    (create_timeslots date t).resp.status = 500 ∧
    (create_timeslots date t).table = t := by
  simp [create_timeslots, generate_timeslots, h1, h2]

/-- Witness for C3 amended at the malformed date "bad". -/
theorem c3_amended_witness :
    ("bad" ≠ "" ∧ parseYMD "bad" = none) ∧
    ((create_timeslots "bad" []).resp.status = 500 ∧
      (create_timeslots "bad" []).table = []) :=
  ⟨⟨by decide, by decide⟩, c3_amended "bad" [] (by decide) (by decide)⟩

/-! ### Claim C9: connection release on every exit path -/

/-- Counterexample to C9 as stated: generate_timeslots opens its
connection before parsing the date and has no try/finally, so when
strptime raises on the malformed date "nope" the connection it acquired
is never released. -/
theorem c9_counterexample :
    (generate_timeslots "nope" 9 17 60 []).connOk = false := by decide

/-- C9 amended: book, cancel, the available listing and the booked
listing release every storage connection they acquire on every exit path;
the generate operation releases its connection exactly when the date
parses and both hours are within 0..23 - on a parse or hour failure the
connection it opened leaks. -/
theorem c9_amended :
    (∀ sid nm em ph (t : Table), (book_appointment sid nm em ph t).connOk = true) ∧
    (∀ sid (t : Table), (cancel_appointment sid t).connOk = true) ∧
    (∀ d (t : Table), (get_available_timeslots d t).connOk = true) ∧
    (∀ d (t : Table), (get_booked_appointments d t).connOk = true) ∧
    (∀ date sh eh dur (t : Table),
      (generate_timeslots date sh eh dur t).connOk =
        ((parseYMD date).isSome && (decide (sh ≤ 23) && decide (eh ≤ 23)))) := by
  refine ⟨?_, ?_, ?_, ?_, ?_⟩
  · intro sid nm em ph t
    unfold book_appointment
    cases t.find? (fun r => r.id == sid && r.is_booked == false) <;> rfl
  · intro sid t
    unfold cancel_appointment
    split
    · rfl
    · cases t.find? (fun r => r.id == sid && r.is_booked == true) <;> rfl
  · intro d t
    unfold get_available_timeslots
    split <;> rfl
  · intro d t
    cases d with
    | none => rfl
    | some s => by_cases hs : s = "" <;> simp [get_booked_appointments, hs]
  · intro date sh eh dur t
    cases hp : parseYMD date with
    | none => simp [generate_timeslots, hp]
    | some v =>
      by_cases h1 : sh ≤ 23 <;> by_cases h2 : eh ≤ 23 <;>
        simp [generate_timeslots, hp, h1, h2]

/-! ### Claim C10: cancel with slot id 0 -/

/-- C10: cancel with slot_id = 0 always returns 400 "Slot ID is required"
and leaves any table - even one containing a booked slot with id 0 -
unchanged: Python's falsy test `if not slot_id` treats the integer 0 the
same as a missing slot id, and the endpoint returns before opening a
storage connection, so storage is never consulted. -/
theorem c10_cancel_zero_slot_id (t : Table) :
    cancel_appointment 0 t = ⟨⟨400, "Slot ID is required"⟩, t, true⟩ := rfl

end AppointmentBooking
